import Mathlib

/-!
Verification of the Kredefy credit-decision engine against its
natural-language specification.

The definitions below are a shallow embedding of the Python sources under
`backend/app`.  Python floats are modelled as real numbers, integers as `ℤ`
or `ℕ`, timestamps as integer epoch seconds (a `none` timestamp models a
missing or unparseable ISO string), and dictionaries with a fixed key set as
structures whose optional keys are `Option` fields.  Each definition cites
the source file and function it embeds.
-/

namespace Kredefy

/-! ## Python `round(x, 2)`

`round` in Python rounds half to even.  `pyRoundUnit` is `round(x)` on a
real number (returning the integer), `pyRound2` is `round(x, 2)`. -/
/-- Python `round(x)`: nearest integer, ties to even. -/
noncomputable def pyRoundUnit (x : ℝ) : ℤ :=
  if x - ⌊x⌋ < 1/2 then ⌊x⌋
  else if (1:ℝ)/2 < x - ⌊x⌋ then ⌊x⌋ + 1
  else if Even ⌊x⌋ then ⌊x⌋ else ⌊x⌋ + 1

/-- Python `round(x, 2)`. -/
noncomputable def pyRound2 (x : ℝ) : ℝ := (pyRoundUnit (x * 100) : ℝ) / 100

/-! ## Quadratic voting (`backend/app/services/governance.py`)

`QuadraticVotingService` with `quorum_percentage` passed explicitly
(default 50.0 in the source). -/
/-- One element of the `votes` list passed to `tally_votes`. -/
structure Vote where
  voterId : String
  tokensSpent : ℤ
  vote : String
  deriving Repr

/-- `QuadraticVotingService.calculate_vote_power` (governance.py lines 29-36). -/
noncomputable def calculate_vote_power (tokensSpent : ℤ) : ℝ :=
  if tokensSpent ≤ 0 then 0 else Real.sqrt (tokensSpent : ℝ)

/-- One iteration of the accumulation loop in `tally_votes`
(governance.py lines 51-56): the loop computes
`power = self.calculate_vote_power(vote["tokens_spent"])` and adds it to the
side named by the vote direction. -/
noncomputable def tallyStep (acc : ℝ × ℝ) (v : Vote) : ℝ × ℝ :=
  if v.vote = "for" then (acc.1 + calculate_vote_power v.tokensSpent, acc.2)
  else if v.vote = "against" then (acc.1, acc.2 + calculate_vote_power v.tokensSpent)
  else acc

/-- The `(for_power, against_power)` accumulated by the loop in `tally_votes`. -/
noncomputable def tallyPowers (votes : List Vote) : ℝ × ℝ :=
  votes.foldl tallyStep (0, 0)

/-- The result dictionary of `tally_votes`. -/
structure TallyResult where
  forPower : ℝ
  againstPower : ℝ
  totalPower : ℝ
  approvalPercentage : ℝ
  totalVoters : ℕ
  quorumMet : Bool
  approved : Bool

/-- `QuadraticVotingService.tally_votes` (governance.py lines 38-75).
Note the `approved` entry compares the UNROUNDED local
`approval_percentage` against the quorum percentage, while the
`approval_percentage` entry of the dictionary is rounded to 2 decimals. -/
noncomputable def tally_votes (quorumPercentage : ℝ) (votes : List Vote) : TallyResult :=
  let p := tallyPowers votes
  let totalPower := p.1 + p.2
  let approvalPct := if totalPower > 0 then p.1 / totalPower * 100 else 0
  let quorumMet := decide (3 ≤ votes.length)
  { forPower := pyRound2 p.1
    againstPower := pyRound2 p.2
    totalPower := pyRound2 totalPower
    approvalPercentage := pyRound2 approvalPct
    totalVoters := votes.length
    quorumMet := quorumMet
    approved := quorumMet && decide (quorumPercentage ≤ approvalPct) }

/-- The result dictionary of `simulate_vote_impact`. -/
structure VoteImpact where
  currentApproval : ℝ
  newApproval : ℝ
  yourVotePower : ℝ
  impact : ℝ
  wouldApprove : Bool

/-- `QuadraticVotingService.simulate_vote_impact` (governance.py lines 77-104). -/
noncomputable def simulate_vote_impact (quorumPercentage : ℝ) (currentVotes : List Vote)
    (newTokens : ℤ) (voteDirection : String) : VoteImpact :=
  let currentResult := tally_votes quorumPercentage currentVotes
  let simulatedVotes := currentVotes ++ [⟨"simulated", newTokens, voteDirection⟩]
  let newResult := tally_votes quorumPercentage simulatedVotes
  { currentApproval := currentResult.approvalPercentage
    newApproval := newResult.approvalPercentage
    yourVotePower := calculate_vote_power newTokens
    impact := newResult.approvalPercentage - currentResult.approvalPercentage
    wouldApprove := newResult.approved }

/-! Spec-side formulations used to state the governance claims. -/
/-- Sum of vote powers of the votes cast "for". -/
noncomputable def forPowerOf (votes : List Vote) : ℝ :=
  ((votes.filter (fun v => v.vote = "for")).map
    (fun v => calculate_vote_power v.tokensSpent)).sum

/-- Sum of vote powers of the votes cast "against". -/
noncomputable def againstPowerOf (votes : List Vote) : ℝ :=
  ((votes.filter (fun v => v.vote = "against")).map
    (fun v => calculate_vote_power v.tokensSpent)).sum

/-- The approval percentage as the spec words it: for-power as a share of
total power, times 100 (0 when there is no power). -/
noncomputable def approvalShare (votes : List Vote) : ℝ :=
  if forPowerOf votes + againstPowerOf votes > 0 then
    forPowerOf votes / (forPowerOf votes + againstPowerOf votes) * 100
  else 0

/-- Number of distinct voter ids appearing in the vote list. -/
def distinctVoterCount (votes : List Vote) : ℕ :=
  ((votes.map (fun v => v.voterId)).dedup).length

/-- The local variable `approval_percentage` of `tally_votes` before rounding. -/
noncomputable def rawApproval (votes : List Vote) : ℝ :=
  if (tallyPowers votes).1 + (tallyPowers votes).2 > 0 then
    (tallyPowers votes).1 / ((tallyPowers votes).1 + (tallyPowers votes).2) * 100
  else 0

/-! ### Claims C3, C8, C10 -/
/-- Vote list used to refute C3 as stated: three vote records all cast by
the same voter. -/
def c3Votes : List Vote := [⟨"A", 1, "for"⟩, ⟨"A", 1, "for"⟩, ⟨"A", 1, "against"⟩]

/-- Vote list used for the C8 counterexample: approval is already at 100%. -/
def c8Votes : List Vote := [⟨"A", 1, "for"⟩]

/-- Two-voter list used for the C10 quorum-flip example. -/
def c10Votes : List Vote := [⟨"A", 1, "for"⟩, ⟨"B", 1, "for"⟩]

/-- A vote record carrying no voting power: zero tokens, direction neither
"for" nor "against". -/
def c10Extra : Vote := ⟨"C", 0, "abstain"⟩

/-! ## Reasoning traces (`backend/app/ai/engine.py`)

`ReasoningStep`, `ReasoningTrace` and its `add_thought` / `observe` /
`analyze` / `hypothesize` / `act` / `reflect` / `conclude` operations
(engine.py lines 25-99).  Confidences are rationals; the `timestamp`,
`metadata`, `duration_ms` and `created_at` fields play no role in any claim
and are omitted.  The Python methods take default confidences (0.9, 0.8,
0.7, 0.85, 0.75, 0.85); here the confidence is always passed explicitly. -/
inductive ThoughtType
  | observation
  | analysis
  | hypothesis
  | action
  | reflection
  | conclusion
  deriving Repr, DecidableEq

structure ReasoningStep where
  stepNumber : ℕ
  thoughtType : ThoughtType
  content : String
  confidence : ℚ
  deriving Repr, DecidableEq

structure ReasoningTrace where
  traceId : String
  agentName : String
  task : String
  steps : List ReasoningStep
  finalDecision : Option String
  totalConfidence : ℚ
  deriving Repr, DecidableEq

/-- A fresh `ReasoningTrace` as constructed by `BaseAgent.create_trace`
(engine.py lines 138-146): empty steps, no final decision,
`total_confidence = 0.0`. -/
def newTrace (traceId agentName task : String) : ReasoningTrace :=
  { traceId := traceId, agentName := agentName, task := task,
    steps := [], finalDecision := none, totalConfidence := 0 }

/-- `ReasoningTrace.add_thought` (engine.py lines 56-72): appends a step
numbered `len(steps) + 1`.  It does NOT touch `total_confidence`. -/
def ReasoningTrace.add_thought (tr : ReasoningTrace) (t : ThoughtType)
    (content : String) (confidence : ℚ) : ReasoningTrace :=
  { tr with steps := tr.steps ++
      [{ stepNumber := tr.steps.length + 1, thoughtType := t,
         content := content, confidence := confidence }] }

/-- `ReasoningTrace.conclude` (engine.py lines 94-99): appends a
`CONCLUSION` step, sets `final_decision`, and sets `total_confidence` to
the mean of the step confidences at this point. -/
def ReasoningTrace.conclude (tr : ReasoningTrace) (decision : String)
    (confidence : ℚ) : ReasoningTrace :=
  let tr1 := tr.add_thought ThoughtType.conclusion decision confidence
  { tr1 with finalDecision := some decision,
             totalConfidence :=
               (tr1.steps.map (fun s => s.confidence)).sum / (tr1.steps.length : ℚ) }

/-- The arithmetic mean of the step confidences of a trace, 0 if it has no
steps (the quantity the spec calls `aggregateConfidence`). -/
def meanConfidence (tr : ReasoningTrace) : ℚ :=
  if tr.steps.length = 0 then 0
  else (tr.steps.map (fun s => s.confidence)).sum / (tr.steps.length : ℚ)

/-- One mutation applied to a trace during an agent execution: either one of
the `observe`/`analyze`/`hypothesize`/`act`/`reflect` appends (all of which
delegate to `add_thought`), or a `conclude`. -/
inductive TraceOp
  | thought (t : ThoughtType) (content : String) (confidence : ℚ)
  | conclude (decision : String) (confidence : ℚ)
  deriving Repr, DecidableEq

def TraceOp.isConclude : TraceOp → Bool
  | .thought _ _ _ => false
  | .conclude _ _ => true

def runOp (tr : ReasoningTrace) (op : TraceOp) : ReasoningTrace :=
  match op with
  | .thought t content conf => tr.add_thought t content conf
  | .conclude decision conf => tr.conclude decision conf

/-- A trace as produced by a sequence of trace operations during one agent
execution. -/
def runOps (tr : ReasoningTrace) (ops : List TraceOp) : ReasoningTrace :=
  ops.foldl runOp tr

/-- The trace operations of FraudGuard's failure path
(fraud_guard.py lines 52-56 and 136): an `observe` at confidence 0.95, then
the exception handler's `reflect` at confidence 0.3 — and no `conclude`. -/
def fraudGuardFailureOps : List TraceOp :=
  [TraceOp.thought ThoughtType.observation
      "Analyzing activity patterns: 0 loans, 0 vouches" (95/100),
   TraceOp.thought ThoughtType.reflection "Fraud check failed: error" (3/10)]

/-! ## Agent context (`backend/app/ai/engine.py` lines 162-175)

The rows the orchestrator loads into the context.  `datetime.utcnow()` is
modelled as an explicit `now : ℤ` (epoch seconds) passed to every
time-dependent computation.  A `none` timestamp models a missing or
unparseable ISO string. -/
structure DiaryEntry where
  type : String
  amount : ℚ
  recordedAt : Option ℤ
  deriving Repr, DecidableEq

structure Loan where
  status : String
  amount : ℚ
  emiAmount : ℚ
  createdAt : Option ℤ
  deriving Repr, DecidableEq

structure Vouch where
  voucherId : String
  status : String
  vouchLevel : String
  saathiStaked : ℚ
  deriving Repr, DecidableEq

structure Circle where
  id : String
  name : String
  memberCount : ℕ
  createdAt : Option ℤ
  deriving Repr, DecidableEq

structure AgentContext where
  userId : String
  trustScore : ℤ
  saathiBalance : ℚ
  language : String
  circles : List Circle
  loans : List Loan
  vouches : List Vouch
  financialDiary : List DiaryEntry
  deriving Repr, DecidableEq

/-! ## FraudGuard (`backend/app/ai/agents/fraud_guard.py`) -/
/-- `FraudGuardAgent._is_recent` (fraud_guard.py lines 211-220): true iff
the timestamp parses and `utcnow() - ts < delta`; false for a missing or
unparseable timestamp.  `seconds` is the `timedelta` in seconds. -/
def is_recent (now : ℤ) (ts : Option ℤ) (seconds : ℤ) : Bool :=
  match ts with
  | none => false
  | some t => now - t < seconds

/-- `_check_velocity` (lines 144-159): suspicious iff more than 3 loans were
created in the last 24 hours; weight 0.3. -/
def velocitySuspicious (now : ℤ) (ctx : AgentContext) : Bool :=
  3 < (ctx.loans.filter (fun l => is_recent now l.createdAt (24 * 3600))).length

/-- Largest number of vouches attributable to a single voucher id (the
count of the `most_common` element of `voucher_ids`). -/
def maxVoucherCount (ids : List String) : ℕ :=
  (ids.map (fun i => ids.count i)).foldl Nat.max 0

/-- `_check_collusion` (lines 161-178): suspicious iff some voucher accounts
for strictly more than 80% of the received vouches; weight 0.4. -/
def collusionSuspicious (ctx : AgentContext) : Bool :=
  let ids := ctx.vouches.map (fun v => v.voucherId)
  !ids.isEmpty && decide ((4 : ℚ)/5 < (maxVoucherCount ids : ℚ) / (ids.length : ℚ))

/-- `_check_behavioral_anomalies` (lines 180-193): suspicious iff
`trust_score > 80` and fewer than 2 loans; weight 0.25. -/
def behaviorSuspicious (ctx : AgentContext) : Bool :=
  80 < ctx.trustScore && ctx.loans.length < 2

/-- `_check_sybil_attack` (lines 195-209): suspicious iff the user has
circles, every circle was created within the last 7 days, and the user has
more than 5 vouches; weight 0.35. -/
def sybilSuspicious (now : ℤ) (ctx : AgentContext) : Bool :=
  !ctx.circles.isEmpty &&
    (ctx.circles.filter (fun c => is_recent now c.createdAt (7 * 86400))).length
      = ctx.circles.length &&
    5 < ctx.vouches.length

/-- The accumulated `risk_level` of `FraudGuardAgent.execute`
(lines 47-98): the sum of the weights of the triggered checks, capped at 1. -/
def fraudRiskLevel (now : ℤ) (ctx : AgentContext) : ℚ :=
  min ((if velocitySuspicious now ctx then 0.3 else 0)
    + (if collusionSuspicious ctx then 0.4 else 0)
    + (if behaviorSuspicious ctx then 0.25 else 0)
    + (if sybilSuspicious now ctx then 0.35 else 0)) 1

/-- The verdict ladder of `FraudGuardAgent.execute` (lines 100-111). -/
def fraudVerdict (now : ℤ) (ctx : AgentContext) : String :=
  if (8 : ℚ)/10 ≤ fraudRiskLevel now ctx then "BLOCK"
  else if (5 : ℚ)/10 ≤ fraudRiskLevel now ctx then "REVIEW"
  else if (3 : ℚ)/10 ≤ fraudRiskLevel now ctx then "WARN"
  else "CLEAR"

/-- The result dictionary of a successful `FraudGuardAgent.execute`
(lines 120-133). -/
structure FraudResult where
  verdict : String
  riskLevel : ℚ
  canProceed : Bool
  deriving Repr, DecidableEq

def fraudGuardResult (now : ℤ) (ctx : AgentContext) : FraudResult :=
  { verdict := fraudVerdict now ctx
    riskLevel := fraudRiskLevel now ctx
    canProceed := fraudVerdict now ctx = "CLEAR" || fraudVerdict now ctx = "WARN" }

/-! ## TrustAnalyzer vouch quality (`backend/app/ai/agents/trust_analyzer.py`) -/
/-- The result of `TrustAnalyzerAgent._analyze_vouch_quality`
(trust_analyzer.py lines 138-161). -/
structure VouchQuality where
  grade : String
  strongVouches : ℕ
  basicVouches : ℕ
  totalStaked : ℚ
  deriving Repr, DecidableEq

def analyze_vouch_quality (vouches : List Vouch) : VouchQuality :=
  let strong := (vouches.filter (fun v =>
    v.vouchLevel = "strong" || v.vouchLevel = "maximum")).length
  let basic := (vouches.filter (fun v => v.vouchLevel = "basic")).length
  let totalStaked := (vouches.map (fun v => v.saathiStaked)).sum
  { grade :=
      if 3 ≤ strong ∧ 200 ≤ totalStaked then "A"
      else if 2 ≤ strong ∨ 100 ≤ totalStaked then "B"
      else if 2 ≤ vouches.length then "C"
      else "D"
    strongVouches := strong
    basicVouches := basic
    totalStaked := totalStaked }

/-! ## Orchestrator: vouch requests (`backend/app/ai/orchestrator.py`) -/
/-- The result dictionary of `AgentOrchestrator.process_vouch_request`
(orchestrator.py lines 276-314).  `agentsRun` records which agents executed
before the return. -/
structure VouchDecision where
  recommended : Bool
  reason : Option String
  voucheeTrustScore : Option ℤ
  vouchQualityGrade : Option String
  agentsRun : List String
  deriving Repr, DecidableEq

/-- `AgentOrchestrator.process_vouch_request`: FraudGuard runs on the
vouchee's context; a BLOCK verdict returns `recommended: False` at once;
otherwise TrustAnalyzer runs and the reply sets
`recommended = (verdict != "BLOCK")` — which is necessarily true there. -/
def process_vouch_request (now : ℤ) (ctx : AgentContext) : VouchDecision :=
  let fraud := fraudGuardResult now ctx
  if fraud.verdict = "BLOCK" then
    { recommended := false
      reason := some "Security concerns with this user"
      voucheeTrustScore := none
      vouchQualityGrade := none
      agentsRun := ["FraudGuard"] }
  else
    let quality := analyze_vouch_quality ctx.vouches
    { recommended := fraud.verdict != "BLOCK"
      reason := none
      voucheeTrustScore := some ctx.trustScore
      vouchQualityGrade := some quality.grade
      agentsRun := ["FraudGuard", "TrustAnalyzer"] }

/-! ## RiskOracle (`backend/app/ai/agents/risk_oracle.py`)

`_calculate_risk_factors` builds six factors; only `income_stability`
involves a square root, so it alone lives in `ℝ`. -/
/-- The diary entries `_calculate_risk_factors` treats as income: Python
filters on `e.get('type') == 'income' and e.get('amount')`, so a zero or
missing amount is excluded (risk_oracle.py lines 186-189). -/
def incomeFilteredEntries (diary : List DiaryEntry) : List DiaryEntry :=
  diary.filter (fun e => e.type = "income" && e.amount != 0)

/-- The `recent_incomes` list of the income-stability computation
(risk_oracle.py lines 192-203): an entry within 30 days is appended, and an
entry whose timestamp fails to parse is ALSO appended (the bare `except`
appends). -/
def recentIncomes (now : ℤ) (diary : List DiaryEntry) : List ℚ :=
  ((incomeFilteredEntries diary).filter (fun e =>
    match e.recordedAt with
    | some t => decide (now - t ≤ 30 * 86400)
    | none => true)).map (fun e => e.amount)

/-- `income_stability` (risk_oracle.py lines 186-220): needs at least 4
income entries overall and at least 2 recent samples before the
coefficient-of-variation formula applies. -/
noncomputable def incomeStabilityFactor (now : ℤ) (diary : List DiaryEntry) : ℝ :=
  if 4 ≤ (incomeFilteredEntries diary).length then
    let recents := recentIncomes now diary
    if 2 ≤ recents.length then
      let mean : ℝ := ((recents.map (fun x => (x : ℝ))).sum) / (recents.length : ℝ)
      if 0 < mean then
        let variance :=
          ((recents.map (fun x => ((x : ℝ) - mean) ^ 2)).sum) / (recents.length : ℝ)
        let cv := Real.sqrt variance / mean
        max 0.3 (min 1.0 (1.0 - cv * 0.7))
      else 0.3
    else 0.4
  else 0.3

/-- `trust_score` factor (risk_oracle.py line 150). -/
def trustFactor (ctx : AgentContext) : ℚ :=
  min ((ctx.trustScore : ℚ) / 100) 1

/-- `repayment_history` factor (risk_oracle.py lines 159-173). -/
def repaymentFactor (ctx : AgentContext) : ℚ :=
  let completed := (ctx.loans.filter (fun l => l.status = "completed")).length
  let defaulted := (ctx.loans.filter (fun l => l.status = "defaulted")).length
  if 0 < completed + defaulted then
    max 0 (min ((completed : ℚ) / ((completed : ℚ) + (defaulted : ℚ))
      + min ((completed : ℚ) * 0.05) 0.2 - (defaulted : ℚ) * 0.15) 1)
  else 0.5

/-- `vouch_levels` lookup with default: `{"basic":1,"strong":2,"maximum":3}`
fetched with default 1 (risk_oracle.py lines 236-240). -/
def vouchLevelScore (level : String) : ℕ :=
  if level = "basic" then 1
  else if level = "strong" then 2
  else if level = "maximum" then 3
  else 1

/-- `vouch_strength` factor (risk_oracle.py lines 231-250). -/
def vouchStrengthFactor (ctx : AgentContext) : ℚ :=
  let active := ctx.vouches.filter (fun v => v.status = "active")
  if !active.isEmpty then
    let totalStaked := (active.map (fun v => v.saathiStaked)).sum
    let avgLevel : ℚ :=
      ((active.map (fun v => vouchLevelScore v.vouchLevel)).sum : ℚ) / (active.length : ℚ)
    min (min ((active.length : ℚ) / 5) 1 * 0.3 + avgLevel / 3 * 0.35
      + min (totalStaked / 500) 1 * 0.35) 1
  else 0.15

/-- `circle_health` factor (risk_oracle.py lines 263-284).  In this model
every list element is a well-formed circle row, so `circle_scores` is
nonempty exactly when the circle list is. -/
def circleHealthFactor (ctx : AgentContext) : ℚ :=
  if !ctx.circles.isEmpty then
    let scores := ctx.circles.map (fun c => min ((c.memberCount : ℚ) / 10) 1)
    if !scores.isEmpty then
      let avgHealth := scores.sum / (scores.length : ℚ)
      min (avgHealth * 0.8 + min (((ctx.circles.length : ℚ) - 1) * 0.1) 0.2 + 0.2) 1
    else 0.5
  else 0.2

/-- The 30-day income entries of the `loan_to_income` factor
(risk_oracle.py lines 297-310): unlike the stability computation, a parse
failure here SKIPS the entry (`except: pass`). -/
def incomes30d (now : ℤ) (diary : List DiaryEntry) : List ℚ :=
  ((incomeFilteredEntries diary).filter (fun e =>
    match e.recordedAt with
    | some t => decide (now - t ≤ 30 * 86400)
    | none => false)).map (fun e => e.amount)

/-- `loan_to_income` factor (risk_oracle.py lines 297-328). -/
def loanToIncomeFactor (now : ℤ) (ctx : AgentContext) : ℚ :=
  let monthlyIncome := (incomes30d now ctx.financialDiary).sum
  let activeLoans := ctx.loans.filter (fun l =>
    l.status = "disbursed" || l.status = "repaying")
  let currentEmi := (activeLoans.map (fun l => l.emiAmount * 4)).sum
  if 0 < monthlyIncome then
    max 0.2 (min 1 (1 - currentEmi / monthlyIncome * 1.6))
  else if 0 < currentEmi then 0.3
  else 0.5

/-- `_calculate_weighted_score` (risk_oracle.py lines 338-352) at the six
factors with their weights 0.25/0.25/0.15/0.15/0.10/0.10 (sum 1). -/
noncomputable def riskWeightedScore (now : ℤ) (ctx : AgentContext) : ℝ :=
  let total : ℝ := (trustFactor ctx : ℝ) * 0.25 + (repaymentFactor ctx : ℝ) * 0.25
    + incomeStabilityFactor now ctx.financialDiary * 0.15
    + (vouchStrengthFactor ctx : ℝ) * 0.15
    + (circleHealthFactor ctx : ℝ) * 0.10
    + (loanToIncomeFactor now ctx : ℝ) * 0.10
  max 0 (min (total / (0.25 + 0.25 + 0.15 + 0.15 + 0.10 + 0.10)) 1)

/-- `_categorize_risk` (risk_oracle.py lines 354-363). -/
noncomputable def categorizeRisk (score : ℝ) : String :=
  if 0.8 ≤ score then "LOW_RISK"
  else if 0.6 ≤ score then "MODERATE_RISK"
  else if 0.4 ≤ score then "ELEVATED_RISK"
  else "HIGH_RISK"

/-- One row of the recommendation table of `_generate_recommendation`
(risk_oracle.py lines 373-402). -/
structure RiskRecommendation where
  action : String
  reason : String
  maxLoan : ℤ
  interestTier : ℕ
  interestRate : ℚ
  deriving Repr, DecidableEq

def baseRecommendation (category : String) : RiskRecommendation :=
  if category = "LOW_RISK" then
    ⟨"APPROVE", "Excellent repayment history and strong trust network", 50000, 1, 8⟩
  else if category = "MODERATE_RISK" then
    ⟨"APPROVE_WITH_CONDITIONS", "Good profile, recommend starting with smaller amount",
      25000, 2, 10⟩
  else if category = "ELEVATED_RISK" then
    ⟨"APPROVE_LIMITED", "Limited history, recommend building trust first", 10000, 3, 12⟩
  else
    ⟨"NEEDS_MORE_VOUCHES", "Insufficient trust network, get more community support",
      5000, 4, 15⟩

/-- `_generate_recommendation` (risk_oracle.py lines 365-416): the table row
for the category, with `max_loan` scaled by
`max(0.3, 1 - outstanding/50000)` and truncated with `int()` when there is
outstanding active-loan debt. -/
def generate_recommendation (category : String) (ctx : AgentContext) : RiskRecommendation :=
  let rec0 := baseRecommendation category
  let activeLoans := ctx.loans.filter (fun l =>
    l.status = "disbursed" || l.status = "repaying")
  let totalOutstanding := (activeLoans.map (fun l => l.amount)).sum
  if 0 < totalOutstanding then
    { rec0 with maxLoan := ⌊(rec0.maxLoan : ℚ) * max 0.3 (1 - totalOutstanding / 50000)⌋ }
  else rec0

/-- The fields of a successful `RiskOracleAgent.execute` result used by the
orchestrator (risk_oracle.py lines 112-126); the oracle payload with its
timestamp and signature is not needed by any claim. -/
structure RiskResult where
  riskScore : ℝ
  riskCategory : String
  recommendation : RiskRecommendation

noncomputable def riskOracleResult (now : ℤ) (ctx : AgentContext) : RiskResult :=
  let score := riskWeightedScore now ctx
  let category := categorizeRisk score
  { riskScore := score
    riskCategory := category
    recommendation := generate_recommendation category ctx }

/-! ## LoanAdvisor (`backend/app/ai/agents/loan_advisor.py`) -/
structure IncomeAnalysis where
  estimatedMonthly : ℚ
  confidence : ℚ
  deriving Repr, DecidableEq

/-- `LoanAdvisorAgent._analyze_income` (loan_advisor.py lines 147-177):
filters on type only (no amount truthiness, no 30-day window), sums the
LAST 30 list elements (`income_entries[-30:]`), and divides by
`min(count/10, 3)` months. -/
def analyze_income (diary : List DiaryEntry) : IncomeAnalysis :=
  let incomeEntries := diary.filter (fun e => e.type = "income")
  if incomeEntries.isEmpty then
    { estimatedMonthly := 10000, confidence := 0.3 }
  else
    let total := ((incomeEntries.drop (incomeEntries.length - 30)).map
      (fun e => e.amount)).sum
    let months : ℚ := min ((incomeEntries.length : ℚ) / 10) 3
    if 0 < months then
      { estimatedMonthly := total / months
        confidence := min (0.5 + (incomeEntries.length : ℚ) * 0.02) 0.9 }
    else
      { estimatedMonthly := total, confidence := 0.4 }

/-- `LoanAdvisorAgent._calculate_current_emi` (loan_advisor.py
lines 179-183). -/
def calculate_current_emi (loans : List Loan) : ℚ :=
  ((loans.filter (fun l => l.status = "disbursed" || l.status = "repaying")).map
    (fun l => l.emiAmount)).sum

/-- `LoanAdvisorAgent._get_trust_multiplier` (loan_advisor.py
lines 185-196). -/
def get_trust_multiplier (trustScore : ℤ) : ℚ :=
  if 80 ≤ trustScore then 2
  else if 60 ≤ trustScore then 1.5
  else if 40 ≤ trustScore then 1
  else if 20 ≤ trustScore then 0.5
  else 0.25

/-- The `recommendation` dictionary built by `LoanAdvisorAgent.execute`
(loan_advisor.py lines 74-118).  Keys absent from a branch are `none`.
The localized `explanation` text is presentation-only; its content is
modelled as a language-tagged token. -/
structure AdvisorRecommendation where
  canBorrow : Bool
  maxAmount : Option ℚ
  recommendedAmount : Option ℚ
  recommendedTenureWeeks : Option ℕ
  recommendedEmi : Option ℚ
  reason : Option String
  advice : Option String
  suggestedAction : Option String
  explanation : Option String
  deriving Repr, DecidableEq

/-- Stand-in for `_explain_in_simple_terms` (loan_advisor.py lines 198-221),
whose localized wording is irrelevant to every claim. -/
def explain_in_simple_terms (language : String) : String :=
  "loan-explanation-" ++ language

/-- The decision logic of `LoanAdvisorAgent.execute`
(loan_advisor.py lines 33-136). -/
def loanAdvisorRecommendation (ctx : AgentContext) : AdvisorRecommendation :=
  let incomeAnalysis := analyze_income ctx.financialDiary
  let currentEmiBurden := calculate_current_emi ctx.loans
  let safeEmi := incomeAnalysis.estimatedMonthly * 0.3 - currentEmiBurden
  let trustMultiplier := get_trust_multiplier ctx.trustScore
  let baseLimit : ℚ := 5000 + (ctx.trustScore : ℚ) * 450
  let maxLoan := min (baseLimit * trustMultiplier) 50000
  if safeEmi ≤ 0 then
    { canBorrow := false, maxAmount := none, recommendedAmount := none,
      recommendedTenureWeeks := none, recommendedEmi := none,
      reason := some "existing_emi_too_high",
      advice := some "Pay off current loans first to qualify for new loan",
      suggestedAction := some "wait", explanation := none }
  else if ctx.trustScore < 20 then
    { canBorrow := false, maxAmount := none, recommendedAmount := none,
      recommendedTenureWeeks := none, recommendedEmi := none,
      reason := some "trust_too_low",
      advice := some "Get vouches from circle members to build trust",
      suggestedAction := some "get_vouches", explanation := none }
  else
    let recommendedAmount := min maxLoan (safeEmi * 10 * 4)
    { canBorrow := true, maxAmount := some maxLoan,
      recommendedAmount := some recommendedAmount,
      recommendedTenureWeeks := some 10,
      recommendedEmi := some (recommendedAmount / 10),
      reason := none, advice := none, suggestedAction := none,
      explanation := some (explain_in_simple_terms ctx.language) }

/-- The result of a successful `LoanAdvisorAgent.execute`
(loan_advisor.py lines 127-136). -/
structure AdvisorResult where
  recommendation : AdvisorRecommendation
  incomeAnalysis : IncomeAnalysis
  trustScore : ℤ
  deriving Repr, DecidableEq

def loanAdvisorResult (ctx : AgentContext) : AdvisorResult :=
  { recommendation := loanAdvisorRecommendation ctx
    incomeAnalysis := analyze_income ctx.financialDiary
    trustScore := ctx.trustScore }

/-! ## Orchestrator: loan requests (`backend/app/ai/orchestrator.py`
lines 177-274) -/
/-- A successful decision returned by the optional external Mastra workflow
(orchestrator.py lines 195-219).  `none` models both an unset
`mastra_service_url` and an unsuccessful Mastra call, in which case the
local pipeline below runs. -/
structure MastraLoanDecision where
  approved : Bool
  approvedAmount : ℚ
  riskCategory : Option String
  deriving Repr, DecidableEq

/-- The decision dictionary returned by `process_loan_request`.  `agentsRun`
records which local agents executed before the return. -/
structure LoanDecision where
  approved : Bool
  approvedAmount : Option ℝ
  requestedAmount : Option ℝ
  riskCategory : Option String
  reason : Option String
  advice : Option String
  suggestedAction : Option String
  agentsRun : List String

/-- `AgentOrchestrator.process_loan_request` (orchestrator.py
lines 177-274): FraudGuard first; a BLOCK verdict declines at once (before
RiskOracle and LoanAdvisor); otherwise RiskOracle then LoanAdvisor run, the
decision approves iff `recommendation["can_borrow"]`, and the approved
amount is `min(amount, recommendation.get("max_amount", 0),
risk recommendation max_loan)`. -/
noncomputable def process_loan_request (mastra : Option MastraLoanDecision) (now : ℤ)
    (ctx : AgentContext) (amount : ℝ) : LoanDecision :=
  match mastra with
  | some m =>
    { approved := m.approved, approvedAmount := some (m.approvedAmount : ℝ),
      requestedAmount := some amount, riskCategory := m.riskCategory,
      reason := none, advice := none, suggestedAction := none, agentsRun := [] }
  | none =>
    let fraud := fraudGuardResult now ctx
    if fraud.verdict = "BLOCK" then
      { approved := false, approvedAmount := none, requestedAmount := none,
        riskCategory := none, reason := some "Security check failed",
        advice := none, suggestedAction := none, agentsRun := ["FraudGuard"] }
    else
      let risk := riskOracleResult now ctx
      let advisor := loanAdvisorResult ctx
      let rcm := advisor.recommendation
      if rcm.canBorrow then
        { approved := true
          approvedAmount := some (min amount (min ((rcm.maxAmount.getD 0 : ℚ) : ℝ)
            ((risk.recommendation.maxLoan : ℝ))))
          requestedAmount := some amount
          riskCategory := some risk.riskCategory
          reason := none, advice := none, suggestedAction := none
          agentsRun := ["FraudGuard", "RiskOracle", "LoanAdvisor"] }
      else
        { approved := false, approvedAmount := none, requestedAmount := some amount,
          riskCategory := none, reason := rcm.reason, advice := rcm.advice,
          suggestedAction := rcm.suggestedAction,
          agentsRun := ["FraudGuard", "RiskOracle", "LoanAdvisor"] }

/-! Concrete contexts exercising both branches of the fraud check. -/
/-- A context every fraud check flags: trust 85 with no loans (behavior),
six vouches all from one voucher (collusion and, with a freshly created
circle, sybil).  Total risk 0.4 + 0.25 + 0.35 = 1.0 ≥ 0.8 → BLOCK. -/
def ctxBlock : AgentContext :=
  { userId := "user-block", trustScore := 85, saathiBalance := 0, language := "en"
    circles := [⟨"c1", "Circle One", 5, some 0⟩]
    loans := []
    vouches := List.replicate 6 ⟨"V", "active", "basic", 10⟩
    financialDiary := [] }

/-- A context with no activity at all and mid trust: every check passes,
risk 0 → CLEAR. -/
def ctxClear : AgentContext :=
  { userId := "user-clear", trustScore := 50, saathiBalance := 0, language := "en"
    circles := [], loans := [], vouches := [], financialDiary := [] }

/-! ### Claim C5: the income-stability factor -/
/-- The mean the spec describes: μ of a sample list. -/
noncomputable def sampleMean (xs : List ℚ) : ℝ :=
  ((xs.map (fun x => (x : ℝ))).sum) / (xs.length : ℝ)

/-- The population variance σ² of a sample list, as the spec describes. -/
noncomputable def popVariance (xs : List ℚ) : ℝ :=
  ((xs.map (fun x => ((x : ℝ) - sampleMean xs) ^ 2)).sum) / (xs.length : ℝ)

/-- The score the claim asserts: `clamp(1 − 0.7·cv, 0.3, 1.0)` with
`cv = σ/μ` the population coefficient of variation. -/
noncomputable def cvStabilityScore (xs : List ℚ) : ℝ :=
  max 0.3 (min 1.0 (1.0 - Real.sqrt (popVariance xs) / sampleMean xs * 0.7))

/-- A diary with exactly two income entries, both in the last 30 days. -/
def c5Diary : List DiaryEntry :=
  [⟨"income", 100, some 0⟩, ⟨"income", 200, some 0⟩]

/-- A diary with four income entries of which exactly the two recent ones
(recorded at `now`) feed the CV formula; the two others are about 231 days
old. -/
def c5WitnessDiary : List DiaryEntry :=
  [⟨"income", 100, some 0⟩, ⟨"income", 200, some 0⟩,
   ⟨"income", 50, some (-20000000)⟩, ⟨"income", 60, some (-20000000)⟩]

/-! ## ActionAgent (`backend/app/ai/agents/action_agent.py`) and the
response synthesizer (`backend/app/ai/orchestrator.py` lines 316-354) -/
/-- One entry of the `guide_steps` list (action_agent.py lines 137-141). -/
structure GuideStep where
  text : String
  target : String
  overlay : Bool
  deriving Repr, DecidableEq

/-- The pre-fill `state` dictionary of a loan draft
(action_agent.py lines 132-136). -/
structure LoanDraftState where
  amount : ℤ
  circleId : String
  purpose : String
  deriving Repr, DecidableEq

/-- The result dictionary of `ActionAgent.execute`; keys a branch does not
set are `none`.  Note the loan-draft branch sets `screen`, not `target`
(action_agent.py line 131). -/
structure ActionResult where
  success : Option Bool
  message : Option String
  action : Option String
  target : Option String
  screen : Option String
  state : Option LoanDraftState
  guideSteps : Option (List GuideStep)
  deriving Repr, DecidableEq

/-- `ActionAgent._create_loan_draft` (action_agent.py lines 82-142):
`_find_best_circle` returns the first circle; without one, a NAVIGATE to
/circles; with one, a GUIDE_FLOW whose draft amount is RiskOracle's
`max_loan` when RiskOracle ran, else 10000. -/
def create_loan_draft (ctx : AgentContext) (riskRec : Option RiskRecommendation) :
    ActionResult :=
  match ctx.circles.head? with
  | none =>
    { success := some false
      message := some "You need to join a Circle first to get a loan."
      action := some "NAVIGATE", target := some "/circles", screen := none
      state := none, guideSteps := none }
  | some c =>
    let draftAmount : ℤ := match riskRec with
      | some r => r.maxLoan
      | none => 10000
    { success := none, message := none
      action := some "GUIDE_FLOW", target := none
      screen := some "/loans/apply"
      state := some { amount := draftAmount, circleId := c.id, purpose := "Emergency Support" }
      guideSteps := some
        [{ text := "I\x27ve selected the \x27" ++ c.name ++ "\x27 circle for you."
           target := "#circle-select", overlay := true },
         { text := "I\x27ve filled in ₹" ++ toString draftAmount ++ " (your safe limit)."
           target := "#amount-input", overlay := true },
         { text := "Just click here to submit!"
           target := "#submit-btn", overlay := true }] }

/-- The intent routing of `ActionAgent.execute` (action_agent.py
lines 42-64): `loan_request` drafts a loan, `check_score` navigates to
/trust, anything else is a no-op. -/
def actionAgentResult (intent : String) (ctx : AgentContext)
    (riskRec : Option RiskRecommendation) : ActionResult :=
  if intent = "loan_request" then create_loan_draft ctx riskRec
  else if intent = "check_score" then
    { success := none, message := some "Let\x27s check your trust score."
      action := some "NAVIGATE", target := some "/trust", screen := none
      state := none, guideSteps := none }
  else
    { success := none, message := none, action := none, target := none,
      screen := none, state := none, guideSteps := none }

/-- The `bharosa_visual` fields the synthesizer reads
(trust_analyzer.py lines 259-268). -/
structure BharosaVisual where
  display : String
  message : String
  deriving Repr, DecidableEq

/-- The slots of `context.agent_results` that `_synthesize_response` reads;
a `none` models both a missing agent entry and a falsy value for the key
the synthesizer tests. -/
structure SynthesisInputs where
  actionAgent : Option ActionResult
  novaResponse : Option String
  loanAdvisor : Option AdvisorRecommendation
  bharosaVisual : Option BharosaVisual
  deriving Repr, DecidableEq

/-- The payload `_synthesize_response` returns. -/
structure ResponsePayload where
  message : String
  action : Option String
  target : Option String
  data : Option LoanDraftState
  guideSteps : Option (List GuideStep)
  deriving Repr, DecidableEq

/-- The text-only tail of the `_synthesize_response` elif chain
(orchestrator.py lines 340-354). -/
def synthesizeFromText (res : SynthesisInputs) : ResponsePayload :=
  match res.novaResponse with
  | some resp =>
    { message := resp, action := none, target := none, data := none, guideSteps := none }
  | none =>
    match res.loanAdvisor with
    | some rcm =>
      { message :=
          if rcm.canBorrow then rcm.explanation.getD "You can apply for a loan!"
          else rcm.advice.getD "Let me help you qualify."
        action := none, target := none, data := none, guideSteps := none }
    | none =>
      match res.bharosaVisual with
      | some visual =>
        { message := visual.display ++ " - " ++ visual.message
          action := none, target := none, data := none, guideSteps := none }
      | none =>
        { message := "How can I help you today?"
          action := none, target := none, data := none, guideSteps := none }

/-- `AgentOrchestrator._synthesize_response` (orchestrator.py
lines 316-354): with an ActionAgent result whose `action` key is set, the
payload carries the ActionAgent's message (default "I\x27m on it!"), action,
`target` key, `state` as `data`, and `guide_steps`. -/
def synthesize_response (res : SynthesisInputs) : ResponsePayload :=
  match res.actionAgent with
  | some a =>
    match a.action with
    | some act =>
      { message := a.message.getD "I\x27m on it!"
        action := some act
        target := a.target
        data := a.state
        guideSteps := a.guideSteps }
    | none => synthesizeFromText res
  | none => synthesizeFromText res

/-- The ActionAgent loan-draft result at a one-circle context with a
RiskOracle `max_loan` of 10000, and the synthesizer input holding only it. -/
def c6Ctx : AgentContext :=
  { userId := "user-c6", trustScore := 45, saathiBalance := 0, language := "en"
    circles := [⟨"circle-1", "Family Circle", 5, some 0⟩]
    loans := [], vouches := [], financialDiary := [] }

def c6Action : ActionResult :=
  actionAgentResult "loan_request" c6Ctx
    (some ⟨"APPROVE_LIMITED", "Limited history, recommend building trust first", 10000, 3, 12⟩)

def c6Inputs : SynthesisInputs :=
  { actionAgent := some c6Action, novaResponse := none,
    loanAdvisor := none, bharosaVisual := none }

/-! ## Circuit breaker (`backend/app/utils.py` lines 80-167)

One call is one `async with` block executed sequentially: `__aenter__`
either raises `CircuitOpenError` (the wrapped operation is NOT invoked) or
admits the call, and `__aexit__` records the outcome. -/
inductive CircuitState
  | CLOSED
  | OPEN
  | HALF_OPEN
  deriving Repr, DecidableEq

structure CircuitBreaker where
  failureThreshold : ℕ
  recoveryTimeout : ℤ
  successThreshold : ℕ
  state : CircuitState
  failureCount : ℕ
  successCount : ℕ
  lastFailureTime : Option ℤ
  deriving Repr, DecidableEq

/-- `CircuitBreaker.__init__` (utils.py lines 99-114) at the default
thresholds 5 / 30 s / 2. -/
def mkCircuitBreaker : CircuitBreaker :=
  { failureThreshold := 5, recoveryTimeout := 30, successThreshold := 2,
    state := CircuitState.CLOSED, failureCount := 0, successCount := 0,
    lastFailureTime := none }

/-- `timedelta.seconds` of a difference of `now` and an earlier timestamp:
Python normalizes a timedelta into days plus a seconds field in
`[0, 86400)`, and line 120 reads `.seconds` (not `.total_seconds()`), so the
elapsed time is taken modulo 24 hours. -/
def timedeltaSeconds (delta : ℤ) : ℤ := delta % 86400

/-- `CircuitBreaker.__aenter__` (utils.py lines 116-130).  `Except.error r`
models raising `CircuitOpenError` with `r` the advertised retry delay. -/
def aenter (cb : CircuitBreaker) (now : ℤ) : Except ℤ CircuitBreaker :=
  if cb.state = CircuitState.OPEN then
    match cb.lastFailureTime with
    | some t =>
      let elapsed := timedeltaSeconds (now - t)
      if cb.recoveryTimeout ≤ elapsed then
        Except.ok { cb with state := CircuitState.HALF_OPEN, successCount := 0 }
      else Except.error (cb.recoveryTimeout - elapsed)
    | none => Except.ok cb
  else Except.ok cb

/-- `CircuitBreaker._record_success` (utils.py lines 142-150). -/
def record_success (cb : CircuitBreaker) : CircuitBreaker :=
  if cb.state = CircuitState.HALF_OPEN then
    if cb.successThreshold ≤ cb.successCount + 1 then
      { cb with
          state := CircuitState.CLOSED
          failureCount := 0
          successCount := cb.successCount + 1 }
    else { cb with successCount := cb.successCount + 1 }
  else if cb.state = CircuitState.CLOSED then
    { cb with failureCount := 0 }
  else cb

/-- `CircuitBreaker._record_failure` (utils.py lines 152-162). -/
def record_failure (cb : CircuitBreaker) (now : ℤ) : CircuitBreaker :=
  let cb1 := { cb with failureCount := cb.failureCount + 1, lastFailureTime := some now }
  if cb1.state = CircuitState.HALF_OPEN then
    { cb1 with state := CircuitState.OPEN }
  else if cb1.state = CircuitState.CLOSED then
    if cb1.failureThreshold ≤ cb1.failureCount then
      { cb1 with state := CircuitState.OPEN }
    else cb1
  else cb1

/-- One guarded call at time `now` whose wrapped operation would return
success iff `succeeds`: the boolean is true iff the wrapped operation was
actually invoked (false = the call failed fast with `CircuitOpenError` and
the breaker is untouched). -/
def breakerCall (cb : CircuitBreaker) (now : ℤ) (succeeds : Bool) :
    Bool × CircuitBreaker :=
  match aenter cb now with
  | Except.error _ => (false, cb)
  | Except.ok cb1 => (true, if succeeds then record_success cb1 else record_failure cb1 now)

/-- The breaker after 5 consecutive failing calls at time 0, starting from
the default configuration. -/
def afterFiveFailures : CircuitBreaker :=
  ((List.replicate 5 ()).foldl (fun cb _ => (breakerCall cb 0 false).2) mkCircuitBreaker)

/-! ## Repayment processing
(`backend/app/domain/services.py` lines 349-410)

`PaymentDomainService.process_repayment` is driven by the
`payment.completed` webhook handler (`backend/app/api/v1/payments.py`
lines 99-189).  The store methods it calls (`create_repayment`,
`update_trust_score`, `get_loan_repayments`, `update_loan`) are declared
nowhere under the repository's source; they are modelled from the spec's
Store port.  The blockchain service is treated as unconfigured (the
non-fatal fire-and-forget path), so no transaction hash is recorded. -/
structure LoanRecord where
  id : String
  borrowerId : String
  amount : ℚ
  status : String
  deriving Repr, DecidableEq

structure RepaymentRecord where
  loanId : String
  amount : ℚ
  dodoPaymentId : String
  status : String
  deriving Repr, DecidableEq

structure StoreState where
  loans : List LoanRecord
  repayments : List RepaymentRecord
  trustScores : List (String × ℤ)
  deriving Repr, DecidableEq

/-- Modelled from the spec: the Store port's `createRepayment` — missing
from the source tree — records the repayment row it is given; the port
offers no lookup-or-dedupe semantics. -/
def createRepayment (st : StoreState) (r : RepaymentRecord) : StoreState :=
  { st with repayments := st.repayments ++ [r] }

/-- Modelled from the spec: the Store port's
`updateTrustScore(userId, delta, reason)` — missing from the source tree —
moves the user's trust score by the delta. -/
def updateTrustScore (st : StoreState) (userId : String) (delta : ℤ) : StoreState :=
  { st with trustScores := st.trustScores.map (fun p =>
      if p.1 = userId then (p.1, p.2 + delta) else p) }

/-- Modelled from the spec: the Store port's `getLoan`. -/
def getLoan (st : StoreState) (loanId : String) : Option LoanRecord :=
  st.loans.find? (fun l => l.id = loanId)

/-- Modelled from the spec: the Store port's `getLoanRepayments`. -/
def getLoanRepayments (st : StoreState) (loanId : String) : List RepaymentRecord :=
  st.repayments.filter (fun r => r.loanId = loanId)

/-- Modelled from the spec: the Store port's `updateLoan` restricted to the
status write `process_repayment` performs. -/
def updateLoanStatus (st : StoreState) (loanId status : String) : StoreState :=
  { st with loans := st.loans.map (fun l =>
      if l.id = loanId then { l with status := status } else l) }

/-- `PaymentDomainService.process_repayment` (domain/services.py
lines 354-410): looks the loan up, UNCONDITIONALLY creates a repayment row
and applies the +5 trust delta — no check whether `dodo_payment_id` was
already recorded — then completes the loan when the repaid total reaches
110% of the principal. -/
def process_repayment (st : StoreState) (loanId : String) (amount : ℚ)
    (dodoPaymentId : String) : Except String StoreState :=
  match getLoan st loanId with
  | none => Except.error "Loan not found"
  | some loan =>
    let st1 := createRepayment st
      { loanId := loanId, amount := amount, dodoPaymentId := dodoPaymentId,
        status := "completed" }
    let st2 := updateTrustScore st1 loan.borrowerId 5
    let totalRepaid := ((getLoanRepayments st2 loanId).map (fun r => r.amount)).sum
    let st3 := if loan.amount * 1.1 ≤ totalRepaid
      then updateLoanStatus st2 loanId "completed" else st2
    Except.ok st3

/-- The trust score the store holds for a user. -/
def trustOf (st : StoreState) (userId : String) : Option ℤ :=
  (st.trustScores.find? (fun p => p.1 = userId)).map (fun p => p.2)

/-- The loan row the `p-42` webhook repays. -/
def c4Loan : LoanRecord :=
  { id := "L-1", borrowerId := "U", amount := 10000, status := "disbursed" }

/-- The repayment row one processing of the `p-42` webhook creates. -/
def c4Repayment : RepaymentRecord :=
  { loanId := "L-1", amount := 550, dodoPaymentId := "p-42", status := "completed" }

/-- Store holding the loan: borrower `U` at trust 50, no repayments yet. -/
def c4Store : StoreState :=
  { loans := [c4Loan], repayments := [], trustScores := [("U", 50)] }

/-- The store after the `payment.completed` webhook for payment `p-42`
(550 rupees against loan `L-1`) is processed once. -/
def c4AfterOnce : StoreState :=
  match process_repayment c4Store "L-1" 550 "p-42" with
  | Except.ok st => st
  | Except.error _ => c4Store

/-- The store after the same webhook delivery is processed a second time. -/
def c4AfterTwice : StoreState :=
  match process_repayment c4AfterOnce "L-1" 550 "p-42" with
  | Except.ok st => st
  | Except.error _ => c4AfterOnce

/-! ## Theorems -/

theorem pyRoundUnit_bounds (x : ℝ) : ⌊x⌋ ≤ pyRoundUnit x ∧ pyRoundUnit x ≤ ⌊x⌋ + 1 := by
  unfold pyRoundUnit
  split_ifs <;> omega

theorem pyRoundUnit_mono {x y : ℝ} (h : x ≤ y) : pyRoundUnit x ≤ pyRoundUnit y := by
  have hf : ⌊x⌋ ≤ ⌊y⌋ := Int.floor_le_floor h
  rcases eq_or_lt_of_le hf with heq | hlt
  · have hfrac : x - (⌊x⌋ : ℝ) ≤ y - (⌊x⌋ : ℝ) := by linarith
    unfold pyRoundUnit
    rw [← heq]
    split_ifs <;> first | omega | linarith
  · have h1 := (pyRoundUnit_bounds x).2
    have h2 := (pyRoundUnit_bounds y).1
    omega

theorem pyRound2_mono {x y : ℝ} (h : x ≤ y) : pyRound2 x ≤ pyRound2 y := by
  unfold pyRound2
  have := pyRoundUnit_mono (mul_le_mul_of_nonneg_right h (by norm_num : (0:ℝ) ≤ 100))
  have hcast : ((pyRoundUnit (x * 100) : ℤ) : ℝ) ≤ ((pyRoundUnit (y * 100) : ℤ) : ℝ) :=
    Int.cast_le.mpr this
  linarith

theorem pyRoundUnit_intCast (n : ℤ) : pyRoundUnit (n : ℝ) = n := by
  unfold pyRoundUnit
  rw [Int.floor_intCast]
  have h : (n : ℝ) - n < 1/2 := by norm_num
  rw [if_pos h]

theorem calculate_vote_power_nonneg (t : ℤ) : 0 ≤ calculate_vote_power t := by
  unfold calculate_vote_power
  split_ifs
  · exact le_refl 0
  · exact Real.sqrt_nonneg _

theorem forPowerOf_cons (v : Vote) (vs : List Vote) :
    forPowerOf (v :: vs) =
      (if v.vote = "for" then calculate_vote_power v.tokensSpent else 0) + forPowerOf vs := by
  unfold forPowerOf
  rw [List.filter_cons]
  split_ifs with h <;> simp_all

theorem againstPowerOf_cons (v : Vote) (vs : List Vote) :
    againstPowerOf (v :: vs) =
      (if v.vote = "against" then calculate_vote_power v.tokensSpent else 0) +
        againstPowerOf vs := by
  unfold againstPowerOf
  rw [List.filter_cons]
  split_ifs with h <;> simp_all

theorem tallyPowers_go (votes : List Vote) (a b : ℝ) :
    votes.foldl tallyStep (a, b) = (a + forPowerOf votes, b + againstPowerOf votes) := by
  induction votes generalizing a b with
  | nil => simp [forPowerOf, againstPowerOf]
  | cons v vs ih =>
    rw [List.foldl_cons, forPowerOf_cons, againstPowerOf_cons]
    by_cases hf : v.vote = "for"
    · rw [show tallyStep (a, b) v = (a + calculate_vote_power v.tokensSpent, b) by
        simp [tallyStep, hf]]
      rw [ih, if_pos hf, if_neg (show ¬v.vote = "against" by rw [hf]; simp)]
      rw [Prod.mk.injEq]
      constructor <;> ring
    · by_cases ha : v.vote = "against"
      · rw [show tallyStep (a, b) v = (a, b + calculate_vote_power v.tokensSpent) by
          simp [tallyStep, hf, ha]]
        rw [ih, if_neg hf, if_pos ha]
        rw [Prod.mk.injEq]
        constructor <;> ring
      · rw [show tallyStep (a, b) v = (a, b) by simp [tallyStep, hf, ha]]
        rw [ih, if_neg hf, if_neg ha]
        rw [Prod.mk.injEq]
        constructor <;> ring

theorem tallyPowers_eq (votes : List Vote) :
    tallyPowers votes = (forPowerOf votes, againstPowerOf votes) := by
  unfold tallyPowers
  rw [tallyPowers_go]
  simp

theorem forPowerOf_nonneg (votes : List Vote) : 0 ≤ forPowerOf votes := by
  unfold forPowerOf
  apply List.sum_nonneg
  intro x hx
  simp only [List.mem_map] at hx
  obtain ⟨v, _, rfl⟩ := hx
  exact calculate_vote_power_nonneg _

theorem againstPowerOf_nonneg (votes : List Vote) : 0 ≤ againstPowerOf votes := by
  unfold againstPowerOf
  apply List.sum_nonneg
  intro x hx
  simp only [List.mem_map] at hx
  obtain ⟨v, _, rfl⟩ := hx
  exact calculate_vote_power_nonneg _

theorem tally_approvalPercentage_eq (qp : ℝ) (votes : List Vote) :
    (tally_votes qp votes).approvalPercentage = pyRound2 (rawApproval votes) := rfl

theorem rawApproval_nonneg (votes : List Vote) : 0 ≤ rawApproval votes := by
  unfold rawApproval
  have hf := forPowerOf_nonneg votes
  have ha := againstPowerOf_nonneg votes
  rw [tallyPowers_eq]
  dsimp only
  split_ifs with h
  · positivity
  · exact le_refl 0

theorem tallyPowers_append (votes : List Vote) (v : Vote) :
    tallyPowers (votes ++ [v]) = tallyStep (tallyPowers votes) v := by
  unfold tallyPowers
  rw [List.foldl_append]
  rfl

theorem tallyStep_inert (acc : ℝ × ℝ) (v : Vote)
    (h : v.tokensSpent ≤ 0 ∨ (v.vote ≠ "for" ∧ v.vote ≠ "against")) :
    tallyStep acc v = acc := by
  rcases h with h | ⟨h1, h2⟩
  · have hp : calculate_vote_power v.tokensSpent = 0 := by
      unfold calculate_vote_power
      rw [if_pos h]
    unfold tallyStep
    rw [hp]
    split_ifs <;> simp
  · unfold tallyStep
    rw [if_neg h1, if_neg h2]

theorem rawApproval_append_for (votes : List Vote) (v : Vote) (hv : v.vote = "for") :
    rawApproval votes ≤ rawApproval (votes ++ [v]) := by
  unfold rawApproval
  rw [tallyPowers_append, tallyPowers_eq]
  rw [show tallyStep (forPowerOf votes, againstPowerOf votes) v
      = (forPowerOf votes + calculate_vote_power v.tokensSpent, againstPowerOf votes) by
    simp [tallyStep, hv]]
  have hf := forPowerOf_nonneg votes
  have ha := againstPowerOf_nonneg votes
  have hp := calculate_vote_power_nonneg v.tokensSpent
  set f := forPowerOf votes
  set a := againstPowerOf votes
  set p := calculate_vote_power v.tokensSpent
  dsimp only
  by_cases hfa : f + a > 0
  · rw [if_pos hfa, if_pos (by linarith)]
    have hdiv : f / (f + a) ≤ (f + p) / (f + p + a) := by
      rw [div_le_div_iff hfa (by linarith)]
      nlinarith
    nlinarith
  · rw [if_neg hfa]
    split_ifs with h2
    · positivity
    · exact le_refl 0

theorem rawApproval_append_against (votes : List Vote) (v : Vote) (hv : v.vote = "against") :
    rawApproval (votes ++ [v]) ≤ rawApproval votes := by
  unfold rawApproval
  rw [tallyPowers_append, tallyPowers_eq]
  rw [show tallyStep (forPowerOf votes, againstPowerOf votes) v
      = (forPowerOf votes, againstPowerOf votes + calculate_vote_power v.tokensSpent) by
    simp only [tallyStep]
    rw [if_neg (by rw [hv]; decide), if_pos hv]]
  have hf := forPowerOf_nonneg votes
  have ha := againstPowerOf_nonneg votes
  have hp := calculate_vote_power_nonneg v.tokensSpent
  set f := forPowerOf votes
  set a := againstPowerOf votes
  set p := calculate_vote_power v.tokensSpent
  dsimp only
  by_cases hfa : f + a > 0
  · rw [if_pos hfa, if_pos (by linarith)]
    have hdiv : f / (f + (a + p)) ≤ f / (f + a) := by
      rw [div_le_div_iff (by linarith) hfa]
      nlinarith
    nlinarith
  · have hf0 : f = 0 := by linarith
    rw [if_neg hfa]
    split_ifs with h2
    · rw [hf0]
      simp
    · exact le_refl 0

/-- Evaluation of vote power at one token (used by the concrete examples). -/
theorem calculate_vote_power_one : calculate_vote_power 1 = 1 := by
  unfold calculate_vote_power
  rw [if_neg (by norm_num)]
  norm_num

theorem pyRound2_intCast (n : ℤ) : pyRound2 (n : ℝ) = n := by
  unfold pyRound2
  rw [show ((n : ℝ) * 100) = ((n * 100 : ℤ) : ℝ) by push_cast; ring, pyRoundUnit_intCast]
  push_cast
  ring

theorem pyRound2_hundred : pyRound2 100 = 100 := by
  rw [show (100 : ℝ) = ((100 : ℤ) : ℝ) by norm_num, pyRound2_intCast]

theorem c3_tallyPowers : tallyPowers c3Votes = (2, 1) := by
  simp [c3Votes, tallyPowers, tallyStep, calculate_vote_power_one]
  norm_num

/-- C3 counterexample: `tally_votes` counts vote records, not distinct
voters.  Three records from one voter meet the 3-voter quorum, and the loan
is approved even though only one distinct voter participated. -/
theorem C3_quorum_counterexample :
    (tally_votes 50 c3Votes).approved = true ∧ distinctVoterCount c3Votes = 1 := by
  constructor
  · simp only [tally_votes, c3_tallyPowers]
    rw [if_pos (by norm_num : (2 : ℝ) + 1 > 0)]
    simp only [Bool.and_eq_true, decide_eq_true_eq]
    refine ⟨by simp [c3Votes], by norm_num⟩
  · rfl

/-- C3 (amended): the tally declares the loan approved iff the vote list has
at least 3 elements (vote records, not distinct voters) and the unrounded
approval percentage is at least the quorum percentage. -/
theorem C3_tally_approved_iff (qp : ℝ) (votes : List Vote) :
    (tally_votes qp votes).approved = true ↔
      3 ≤ votes.length ∧ qp ≤ approvalShare votes := by
  simp only [tally_votes, tallyPowers_eq]
  simp [Bool.and_eq_true, decide_eq_true_eq, approvalShare]

/-- Witness for C3 (amended): the iff applied at the three-record vote
list. -/
theorem C3_tally_approved_iff_witness :
    (tally_votes 50 c3Votes).approved = true ↔
      3 ≤ c3Votes.length ∧ 50 ≤ approvalShare c3Votes :=
  C3_tally_approved_iff 50 c3Votes

theorem c8_tallyPowers_cur : tallyPowers c8Votes = (1, 0) := by
  simp [c8Votes, tallyPowers, tallyStep, calculate_vote_power_one]

theorem c8_tallyPowers_new :
    tallyPowers (c8Votes ++ [⟨"simulated", 1, "for"⟩]) = (2, 0) := by
  simp [c8Votes, tallyPowers, tallyStep, calculate_vote_power_one]
  norm_num

/-- C8 counterexample: simulating a "for" vote on a tally already at 100%
approval has impact 0, not a positive impact. -/
theorem C8_impact_sign_counterexample :
    (simulate_vote_impact 50 c8Votes 1 "for").impact = 0 := by
  have e : (simulate_vote_impact 50 c8Votes 1 "for").impact
      = pyRound2 (rawApproval (c8Votes ++ [⟨"simulated", 1, "for"⟩]))
        - pyRound2 (rawApproval c8Votes) := rfl
  rw [e]
  unfold rawApproval
  rw [c8_tallyPowers_cur, c8_tallyPowers_new]
  rw [if_pos (by norm_num : (2 : ℝ) + 0 > 0), if_pos (by norm_num : (1 : ℝ) + 0 > 0)]
  norm_num [pyRound2_hundred]

/-- C8 (amended): the simulator's impact is nonnegative for a hypothetical
"for" vote and nonpositive for a hypothetical "against" vote; it can be zero
(e.g. zero tokens, or approval already saturated). -/
theorem C8_impact_sign (qp : ℝ) (votes : List Vote) (tokens : ℤ) :
    0 ≤ (simulate_vote_impact qp votes tokens "for").impact ∧
      (simulate_vote_impact qp votes tokens "against").impact ≤ 0 := by
  constructor
  · have h := rawApproval_append_for votes ⟨"simulated", tokens, "for"⟩ rfl
    have hm := pyRound2_mono h
    have e : (simulate_vote_impact qp votes tokens "for").impact
        = pyRound2 (rawApproval (votes ++ [⟨"simulated", tokens, "for"⟩]))
          - pyRound2 (rawApproval votes) := rfl
    rw [e]
    linarith
  · have h := rawApproval_append_against votes ⟨"simulated", tokens, "against"⟩ rfl
    have hm := pyRound2_mono h
    have e : (simulate_vote_impact qp votes tokens "against").impact
        = pyRound2 (rawApproval (votes ++ [⟨"simulated", tokens, "against"⟩]))
          - pyRound2 (rawApproval votes) := rfl
    rw [e]
    linarith

theorem c10_tallyPowers : tallyPowers c10Votes = (2, 0) := by
  simp [c10Votes, tallyPowers, tallyStep, calculate_vote_power_one]
  norm_num

/-- C10: `tally_votes` counts every vote record toward `total_voters` and
hence toward the 3-voter quorum.  A vote with `tokens_spent ≤ 0` or an
unrecognized direction contributes no power and leaves the approval
percentage unchanged, yet it counts toward quorum — concretely, appending
the zero-power vote `c10Extra` to `c10Votes` flips `approved` from false to
true while `approval_percentage` stays the same. -/
theorem C10_tally_counts_every_vote :
    (∀ votes : List Vote, (tally_votes 50 votes).totalVoters = votes.length) ∧
    (∀ (votes : List Vote) (v : Vote),
        v.tokensSpent ≤ 0 ∨ (v.vote ≠ "for" ∧ v.vote ≠ "against") →
        (tally_votes 50 (votes ++ [v])).approvalPercentage
            = (tally_votes 50 votes).approvalPercentage ∧
          (tally_votes 50 (votes ++ [v])).totalVoters = votes.length + 1) ∧
    ((tally_votes 50 c10Votes).approved = false ∧
      (tally_votes 50 (c10Votes ++ [c10Extra])).approved = true ∧
      (tally_votes 50 (c10Votes ++ [c10Extra])).approvalPercentage
          = (tally_votes 50 c10Votes).approvalPercentage) := by
  have hraw : ∀ (votes : List Vote) (v : Vote),
      v.tokensSpent ≤ 0 ∨ (v.vote ≠ "for" ∧ v.vote ≠ "against") →
      rawApproval (votes ++ [v]) = rawApproval votes := by
    intro votes v h
    unfold rawApproval
    rw [tallyPowers_append, tallyStep_inert _ _ h]
  refine ⟨fun votes => by simp [tally_votes], fun votes v h => ⟨?_, ?_⟩, ?_, ?_, ?_⟩
  · rw [tally_approvalPercentage_eq, tally_approvalPercentage_eq, hraw votes v h]
  · simp [tally_votes]
  · simp only [tally_votes, c10_tallyPowers]
    simp [c10Votes]
  · have hpow : tallyPowers (c10Votes ++ [c10Extra]) = (2, 0) := by
      rw [tallyPowers_append, tallyStep_inert _ _ (Or.inl (by decide)), c10_tallyPowers]
    simp only [tally_votes, hpow]
    rw [if_pos (by norm_num : (2 : ℝ) + 0 > 0)]
    simp only [Bool.and_eq_true, decide_eq_true_eq]
    refine ⟨by simp [c10Votes, c10Extra], by norm_num⟩
  · rw [tally_approvalPercentage_eq, tally_approvalPercentage_eq,
      hraw c10Votes c10Extra (Or.inl (by decide))]

/-- Witness for C10: the quantified parts applied at a concrete vote list
and zero-power vote. -/
theorem C10_tally_counts_every_vote_witness :
    (tally_votes 50 (c10Votes ++ [c10Extra])).approvalPercentage
        = (tally_votes 50 c10Votes).approvalPercentage ∧
      (tally_votes 50 (c10Votes ++ [c10Extra])).totalVoters = c10Votes.length + 1 :=
  C10_tally_counts_every_vote.2.1 c10Votes c10Extra (Or.inl (by decide))

theorem add_thought_totalConfidence (tr : ReasoningTrace) (t : ThoughtType)
    (content : String) (conf : ℚ) :
    (tr.add_thought t content conf).totalConfidence = tr.totalConfidence := rfl

theorem runOps_append_one (tr : ReasoningTrace) (ops : List TraceOp) (op : TraceOp) :
    runOps tr (ops ++ [op]) = runOp (runOps tr ops) op := by
  unfold runOps
  rw [List.foldl_append]
  rfl

theorem conclude_totalConfidence_eq_mean (tr : ReasoningTrace) (d : String) (c : ℚ) :
    (tr.conclude d c).totalConfidence = meanConfidence (tr.conclude d c) := by
  unfold ReasoningTrace.conclude ReasoningTrace.add_thought meanConfidence
  simp

theorem runOps_no_conclude_totalConfidence (tr : ReasoningTrace) (ops : List TraceOp)
    (h : ∀ op ∈ ops, op.isConclude = false) :
    (runOps tr ops).totalConfidence = tr.totalConfidence := by
  induction ops generalizing tr with
  | nil => rfl
  | cons op ops ih =>
    have h1 := h op (List.mem_cons_self _ _)
    have h2 : ∀ o ∈ ops, o.isConclude = false := fun o ho => h o (List.mem_cons_of_mem _ ho)
    show (runOps (runOp tr op) ops).totalConfidence = tr.totalConfidence
    rw [ih (runOp tr op) h2]
    cases op with
    | thought t content conf => rfl
    | conclude d c => simp [TraceOp.isConclude] at h1

/-- Counterexample to C2 as stated: the trace of FraudGuard's failure path
(an `observe` at 0.95, a `reflect` at 0.3, no `conclude`) has
`total_confidence = 0`, not the mean 0.625 of its step confidences, because
`total_confidence` is only assigned inside `conclude`. -/
theorem C2_totalConfidence_counterexample :
    (runOps (newTrace "FraudGuard_0" "FraudGuard" "Fraud check for user") fraudGuardFailureOps).totalConfidence = 0 ∧
    meanConfidence (runOps (newTrace "FraudGuard_0" "FraudGuard" "Fraud check for user") fraudGuardFailureOps) = 5/8 ∧
    (runOps (newTrace "FraudGuard_0" "FraudGuard" "Fraud check for user") fraudGuardFailureOps).totalConfidence ≠
      meanConfidence (runOps (newTrace "FraudGuard_0" "FraudGuard" "Fraud check for user") fraudGuardFailureOps) := by
  have hB : meanConfidence (runOps (newTrace "FraudGuard_0" "FraudGuard" "Fraud check for user")
      fraudGuardFailureOps) = 5/8 := by
    simp [meanConfidence, runOps, runOp, fraudGuardFailureOps, newTrace,
      ReasoningTrace.add_thought]
    norm_num
  refine ⟨rfl, hB, ?_⟩
  rw [hB, show (runOps (newTrace "FraudGuard_0" "FraudGuard" "Fraud check for user")
      fraudGuardFailureOps).totalConfidence = 0 from rfl]
  norm_num

/-- C2 (amended): `total_confidence` equals the arithmetic mean of the step
confidences for every trace whose execution ends with `conclude` (the
successful agent executions); a trace whose execution never concludes —
every failed execution — keeps `total_confidence` at its initial 0 no matter
what steps it accumulated. -/
theorem C2_totalConfidence_amended :
    (∀ (tr : ReasoningTrace) (ops : List TraceOp) (d : String) (c : ℚ),
      (runOps tr (ops ++ [TraceOp.conclude d c])).totalConfidence
        = meanConfidence (runOps tr (ops ++ [TraceOp.conclude d c]))) ∧
    (∀ (i a t : String) (ops : List TraceOp),
      (∀ op ∈ ops, op.isConclude = false) →
      (runOps (newTrace i a t) ops).totalConfidence = 0) := by
  constructor
  · intro tr ops d c
    rw [runOps_append_one]
    exact conclude_totalConfidence_eq_mean _ d c
  · intro i a t ops h
    rw [runOps_no_conclude_totalConfidence _ _ h]
    rfl

/-- Witness for C2 (amended): a concluded execution has the mean as its
total confidence, and the concrete failed FraudGuard execution keeps 0. -/
theorem C2_totalConfidence_amended_witness :
    (runOps (newTrace "LoanAdvisor_0" "LoanAdvisor" "Loan advice")
        ([TraceOp.thought ThoughtType.observation "obs" (95/100)] ++
          [TraceOp.conclude "Recommendation" (88/100)])).totalConfidence
      = meanConfidence (runOps (newTrace "LoanAdvisor_0" "LoanAdvisor" "Loan advice")
          ([TraceOp.thought ThoughtType.observation "obs" (95/100)] ++
            [TraceOp.conclude "Recommendation" (88/100)])) ∧
    (runOps (newTrace "FraudGuard_0" "FraudGuard" "Fraud check for user")
        fraudGuardFailureOps).totalConfidence = 0 :=
  ⟨C2_totalConfidence_amended.1 (newTrace "LoanAdvisor_0" "LoanAdvisor" "Loan advice")
      [TraceOp.thought ThoughtType.observation "obs" (95/100)] "Recommendation" (88/100),
   C2_totalConfidence_amended.2 "FraudGuard_0" "FraudGuard" "Fraud check for user"
      fraudGuardFailureOps (by decide)⟩

/-- C9: whenever FraudGuard's verdict on the vouchee is not BLOCK,
`process_vouch_request` recommends the vouch unconditionally, and only the
reported trust score and vouch-quality grade come from TrustAnalyzer. -/
theorem C9_vouch_recommended_unconditionally (now : ℤ) (ctx : AgentContext)
    (h : (fraudGuardResult now ctx).verdict ≠ "BLOCK") :
    (process_vouch_request now ctx).recommended = true ∧
    (process_vouch_request now ctx).voucheeTrustScore = some ctx.trustScore ∧
    (process_vouch_request now ctx).vouchQualityGrade
      = some (analyze_vouch_quality ctx.vouches).grade := by
  unfold process_vouch_request
  rw [if_neg h]
  refine ⟨?_, rfl, rfl⟩
  simp [bne_iff_ne, h]

/-- C1: with the external Mastra workflow unset, `process_loan_request`
declines on a FraudGuard BLOCK before RiskOracle and LoanAdvisor run;
otherwise approval equals LoanAdvisor's `can_borrow`, and an approved
decision's amount is the minimum of the requested amount, LoanAdvisor's
`max_amount` and RiskOracle's recommended `max_loan`. -/
theorem C1_process_loan_request_pipeline (now : ℤ) (ctx : AgentContext) (amount : ℝ) :
    ((fraudGuardResult now ctx).verdict = "BLOCK" →
      (process_loan_request none now ctx amount).approved = false ∧
      (process_loan_request none now ctx amount).agentsRun = ["FraudGuard"]) ∧
    ((fraudGuardResult now ctx).verdict ≠ "BLOCK" →
      (process_loan_request none now ctx amount).approved
          = (loanAdvisorResult ctx).recommendation.canBorrow ∧
      ((loanAdvisorResult ctx).recommendation.canBorrow = true →
        (process_loan_request none now ctx amount).approvedAmount
          = some (min amount
              (min (((loanAdvisorResult ctx).recommendation.maxAmount.getD 0 : ℚ) : ℝ)
                ((riskOracleResult now ctx).recommendation.maxLoan : ℝ))))) := by
  constructor
  · intro h
    simp [process_loan_request, h]
  · intro h
    by_cases hb : (loanAdvisorResult ctx).recommendation.canBorrow
    · constructor
      · simp [process_loan_request, h, hb]
      · intro _
        simp [process_loan_request, h, hb]
    · constructor
      · simp [process_loan_request, h, hb]
      · intro hcontra
        rw [hcontra] at hb
        exact absurd rfl hb

theorem ctxBlock_collusion : collusionSuspicious ctxBlock = true := by
  simp only [collusionSuspicious]
  rw [show ctxBlock.vouches.map (fun v => v.voucherId) = List.replicate 6 "V" from rfl]
  rw [show maxVoucherCount (List.replicate 6 "V") = 6 from by decide]
  rw [show (List.replicate 6 "V").length = 6 from rfl]
  rw [show (List.replicate 6 "V").isEmpty = false from rfl]
  simp only [Bool.not_false, Bool.true_and]
  rw [decide_eq_true_eq]
  norm_num

theorem ctxBlock_fraudVerdict : fraudVerdict 0 ctxBlock = "BLOCK" := by
  have hrisk : fraudRiskLevel 0 ctxBlock = 1 := by
    unfold fraudRiskLevel
    rw [show velocitySuspicious 0 ctxBlock = false from by decide,
      ctxBlock_collusion,
      show behaviorSuspicious ctxBlock = true from by decide,
      show sybilSuspicious 0 ctxBlock = true from by decide]
    norm_num
  unfold fraudVerdict
  rw [hrisk, if_pos (by norm_num)]

theorem ctxClear_fraudVerdict : fraudVerdict 0 ctxClear = "CLEAR" := by
  have hrisk : fraudRiskLevel 0 ctxClear = 0 := by
    unfold fraudRiskLevel
    rw [show velocitySuspicious 0 ctxClear = false from by decide,
      show collusionSuspicious ctxClear = false from by decide,
      show behaviorSuspicious ctxClear = false from by decide,
      show sybilSuspicious 0 ctxClear = false from by decide]
    norm_num
  unfold fraudVerdict
  rw [hrisk, if_neg (by norm_num), if_neg (by norm_num), if_neg (by norm_num)]

/-- Witness for C9: the non-BLOCK branch at the concrete no-activity
context. -/
theorem C9_vouch_recommended_unconditionally_witness :
    (process_vouch_request 0 ctxClear).recommended = true ∧
    (process_vouch_request 0 ctxClear).voucheeTrustScore = some ctxClear.trustScore ∧
    (process_vouch_request 0 ctxClear).vouchQualityGrade
      = some (analyze_vouch_quality ctxClear.vouches).grade :=
  C9_vouch_recommended_unconditionally 0 ctxClear
    (by rw [show (fraudGuardResult 0 ctxClear).verdict = fraudVerdict 0 ctxClear from rfl,
      ctxClear_fraudVerdict]; decide)

/-- Witness for C1: the BLOCK branch at `ctxBlock` and the normal branch at
`ctxClear`, both at a concrete requested amount. -/
theorem C1_process_loan_request_pipeline_witness :
    ((process_loan_request none 0 ctxBlock 15000).approved = false ∧
      (process_loan_request none 0 ctxBlock 15000).agentsRun = ["FraudGuard"]) ∧
    ((process_loan_request none 0 ctxClear 15000).approved
        = (loanAdvisorResult ctxClear).recommendation.canBorrow ∧
      ((loanAdvisorResult ctxClear).recommendation.canBorrow = true →
        (process_loan_request none 0 ctxClear 15000).approvedAmount
          = some (min 15000
              (min (((loanAdvisorResult ctxClear).recommendation.maxAmount.getD 0 : ℚ) : ℝ)
                ((riskOracleResult 0 ctxClear).recommendation.maxLoan : ℝ))))) :=
  ⟨(C1_process_loan_request_pipeline 0 ctxBlock 15000).1
      (by rw [show (fraudGuardResult 0 ctxBlock).verdict = fraudVerdict 0 ctxBlock from rfl,
        ctxBlock_fraudVerdict]),
   (C1_process_loan_request_pipeline 0 ctxClear 15000).2
      (by rw [show (fraudGuardResult 0 ctxClear).verdict = fraudVerdict 0 ctxClear from rfl,
        ctxClear_fraudVerdict]; simp)⟩

theorem c5Diary_entries_len : (incomeFilteredEntries c5Diary).length = 2 := by decide

theorem c5Diary_recents : recentIncomes 0 c5Diary = [100, 200] := by decide

theorem sampleMean_c5 : sampleMean [(100 : ℚ), 200] = 150 := by
  unfold sampleMean
  norm_num

theorem popVariance_c5 : popVariance [(100 : ℚ), 200] = 2500 := by
  unfold popVariance
  rw [sampleMean_c5]
  norm_num

theorem cvStabilityScore_c5 : cvStabilityScore [(100 : ℚ), 200] = 23/30 := by
  unfold cvStabilityScore
  rw [popVariance_c5, sampleMean_c5]
  rw [show Real.sqrt 2500 = 50 by
    rw [show (2500 : ℝ) = 50 ^ 2 by norm_num]
    exact Real.sqrt_sq (by norm_num)]
  rw [show (1.0 : ℝ) - 50 / 150 * 0.7 = 23/30 by norm_num]
  rw [min_eq_right (by norm_num), max_eq_right (by norm_num)]

/-- C5 counterexample: a diary holding exactly 2 income entries, both within
the last 30 days, gets income stability 0.3 from the code (it requires at
least 4 income entries overall before computing the CV formula), while the
claim's formula gives 23/30. -/
theorem C5_incomeStability_counterexample :
    incomeStabilityFactor 0 c5Diary = 0.3 ∧
    2 ≤ (recentIncomes 0 c5Diary).length ∧
    cvStabilityScore (recentIncomes 0 c5Diary) = 23/30 ∧
    incomeStabilityFactor 0 c5Diary ≠ cvStabilityScore (recentIncomes 0 c5Diary) := by
  have h1 : incomeStabilityFactor 0 c5Diary = 0.3 := by
    unfold incomeStabilityFactor
    rw [if_neg (by rw [c5Diary_entries_len]; omega)]
  have h3 : cvStabilityScore (recentIncomes 0 c5Diary) = 23/30 := by
    rw [c5Diary_recents, cvStabilityScore_c5]
  refine ⟨h1, by rw [c5Diary_recents]; norm_num, h3, ?_⟩
  rw [h1, h3]
  norm_num

/-- C5 (amended): the CV formula applies only when the diary holds at least
4 income entries AND at least 2 samples fall in the last 30 days; with at
least 4 entries but fewer than 2 recent samples the factor is 0.4; with
fewer than 4 income entries it is 0.3 regardless of how many are recent. -/
theorem C5_incomeStability_amended (now : ℤ) (diary : List DiaryEntry) :
    (4 ≤ (incomeFilteredEntries diary).length →
      (2 ≤ (recentIncomes now diary).length →
        (0 < sampleMean (recentIncomes now diary) →
          incomeStabilityFactor now diary = cvStabilityScore (recentIncomes now diary)) ∧
        (sampleMean (recentIncomes now diary) ≤ 0 →
          incomeStabilityFactor now diary = 0.3)) ∧
      ((recentIncomes now diary).length < 2 →
        incomeStabilityFactor now diary = 0.4)) ∧
    ((incomeFilteredEntries diary).length < 4 →
      incomeStabilityFactor now diary = 0.3) := by
  refine ⟨fun h4 => ⟨fun h2 => ⟨fun hmean => ?_, fun hmean => ?_⟩, fun hlt => ?_⟩,
    fun hlt => ?_⟩
  · unfold incomeStabilityFactor
    rw [if_pos h4]
    dsimp only
    rw [if_pos h2]
    unfold sampleMean at hmean
    rw [if_pos hmean]
    unfold cvStabilityScore popVariance sampleMean
    rfl
  · unfold incomeStabilityFactor
    rw [if_pos h4]
    dsimp only
    rw [if_pos h2]
    unfold sampleMean at hmean
    rw [if_neg (not_lt.mpr hmean)]
  · unfold incomeStabilityFactor
    rw [if_pos h4]
    dsimp only
    rw [if_neg (by omega)]
  · unfold incomeStabilityFactor
    rw [if_neg (by omega)]

theorem c5WitnessDiary_recents : recentIncomes 0 c5WitnessDiary = [100, 200] := by decide

/-- Witness for C5 (amended): the CV branch at a concrete diary with 4
income entries and 2 recent samples, and the low-data branch at the
two-entry diary. -/
theorem C5_incomeStability_amended_witness :
    incomeStabilityFactor 0 c5WitnessDiary
        = cvStabilityScore (recentIncomes 0 c5WitnessDiary) ∧
    incomeStabilityFactor 0 c5Diary = 0.3 :=
  ⟨(((C5_incomeStability_amended 0 c5WitnessDiary).1 (by decide)).1
      (by rw [c5WitnessDiary_recents]; norm_num)).1
      (by rw [c5WitnessDiary_recents, sampleMean_c5]; norm_num),
   (C5_incomeStability_amended 0 c5Diary).2 (by rw [c5Diary_entries_len]; omega)⟩

/-- C6 counterexample: the loan-request GUIDE_FLOW puts "/loans/apply" in
the ActionAgent result's `screen` key, which the synthesizer never reads:
the synthesized `target` is absent, not "/loans/apply". -/
theorem C6_synthesize_target_counterexample :
    (synthesize_response c6Inputs).action = some "GUIDE_FLOW" ∧
    c6Action.screen = some "/loans/apply" ∧
    (synthesize_response c6Inputs).target = none ∧
    (synthesize_response c6Inputs).target ≠ some "/loans/apply" := by
  refine ⟨by decide, by decide, by decide, by decide⟩

/-- C6 (amended): with an ActionAgent result carrying an action, the
synthesizer returns that action with message = ActionAgent's message or
"I\x27m on it!", data = ActionAgent's `state`, the guide steps, and target =
the ActionAgent result's `target` key.  For a loan_request GUIDE_FLOW the
response carries action GUIDE_FLOW, message "I\x27m on it!", the prefilled
amount (RiskOracle's max_loan), circle id and purpose "Emergency Support",
and three guide steps — but no target: "/loans/apply" sits only in the
unpropagated `screen` key. -/
theorem C6_synthesize_action_payload :
    (∀ (res : SynthesisInputs) (a : ActionResult) (act : String),
      res.actionAgent = some a → a.action = some act →
      synthesize_response res =
        { message := a.message.getD "I\x27m on it!", action := some act,
          target := a.target, data := a.state, guideSteps := a.guideSteps }) ∧
    (∀ (ctx : AgentContext) (c : Circle) (r : RiskRecommendation)
        (res : SynthesisInputs),
      ctx.circles.head? = some c →
      res.actionAgent = some (actionAgentResult "loan_request" ctx (some r)) →
      (synthesize_response res).action = some "GUIDE_FLOW" ∧
      (synthesize_response res).message = "I\x27m on it!" ∧
      (synthesize_response res).data
          = some { amount := r.maxLoan, circleId := c.id, purpose := "Emergency Support" } ∧
      (synthesize_response res).target = none ∧
      ((synthesize_response res).guideSteps.map (fun steps => steps.length)) = some 3) := by
  have hmain : ∀ (res : SynthesisInputs) (a : ActionResult) (act : String),
      res.actionAgent = some a → a.action = some act →
      synthesize_response res =
        { message := a.message.getD "I\x27m on it!", action := some act,
          target := a.target, data := a.state, guideSteps := a.guideSteps } := by
    intro res a act hres hact
    unfold synthesize_response
    rw [hres]
    dsimp only
    rw [hact]
  refine ⟨hmain, ?_⟩
  intro ctx c r res hc hres
  have ha : actionAgentResult "loan_request" ctx (some r) = create_loan_draft ctx (some r) := by
    unfold actionAgentResult
    rw [if_pos rfl]
  have hdraft := ha.trans (by unfold create_loan_draft; rw [hc])
  rw [hmain res _ "GUIDE_FLOW" hres (by rw [hdraft])]
  rw [hdraft]
  refine ⟨rfl, rfl, rfl, rfl, rfl⟩

/-- Witness for C6 (amended): both parts at the concrete one-circle
context. -/
theorem C6_synthesize_action_payload_witness :
    synthesize_response c6Inputs =
      { message := c6Action.message.getD "I\x27m on it!", action := some "GUIDE_FLOW",
        target := c6Action.target, data := c6Action.state,
        guideSteps := c6Action.guideSteps } ∧
    ((synthesize_response c6Inputs).action = some "GUIDE_FLOW" ∧
      (synthesize_response c6Inputs).message = "I\x27m on it!" ∧
      (synthesize_response c6Inputs).data
          = some { amount := 10000, circleId := "circle-1", purpose := "Emergency Support" } ∧
      (synthesize_response c6Inputs).target = none ∧
      ((synthesize_response c6Inputs).guideSteps.map (fun steps => steps.length)) = some 3) :=
  ⟨C6_synthesize_action_payload.1 c6Inputs c6Action "GUIDE_FLOW" rfl (by decide),
   C6_synthesize_action_payload.2 c6Ctx ⟨"circle-1", "Family Circle", 5, some 0⟩
     ⟨"APPROVE_LIMITED", "Limited history, recommend building trust first", 10000, 3, 12⟩
     c6Inputs (by decide) rfl⟩

/-- C7: after `failure_threshold` = 5 consecutive failures the breaker is
OPEN; a call 10 s later (before the 30 s recovery timeout) fails fast
without invoking the wrapped operation and leaves the breaker untouched; a
call 40 s later is admitted as the probe.  But because line 120 reads
`timedelta.seconds` rather than `total_seconds()`, a call 86400 s (24 h)
after the last failure computes elapsed = 0 and ALSO fails fast, although
the recovery timeout elapsed long before — the probe the claim promises is
refused. -/
theorem C7_circuit_breaker_wraparound :
    afterFiveFailures.state = CircuitState.OPEN ∧
    afterFiveFailures.lastFailureTime = some 0 ∧
    breakerCall afterFiveFailures 10 true = (false, afterFiveFailures) ∧
    (breakerCall afterFiveFailures 40 true).1 = true ∧
    (breakerCall afterFiveFailures 40 true).2.state = CircuitState.HALF_OPEN ∧
    breakerCall afterFiveFailures 86400 true = (false, afterFiveFailures) := by
  refine ⟨by decide, by decide, by decide, by decide, by decide, by decide⟩

theorem c4_once_eq : c4AfterOnce =
    { loans := [c4Loan], repayments := [c4Repayment], trustScores := [("U", 55)] } := by
  have hp : process_repayment c4Store "L-1" 550 "p-42" = Except.ok
      { loans := [c4Loan], repayments := [c4Repayment], trustScores := [("U", 55)] } := by
    unfold process_repayment
    rw [show getLoan c4Store "L-1" = some c4Loan from by decide]
    dsimp only
    rw [if_neg (by norm_num [c4Store, c4Loan, c4Repayment, createRepayment,
      updateTrustScore, getLoanRepayments])]
    simp only [Except.ok.injEq]
    decide
  unfold c4AfterOnce
  rw [hp]

theorem c4_twice_eq : c4AfterTwice =
    { loans := [c4Loan], repayments := [c4Repayment, c4Repayment],
      trustScores := [("U", 60)] } := by
  have hp : process_repayment
      { loans := [c4Loan], repayments := [c4Repayment], trustScores := [("U", 55)] }
      "L-1" 550 "p-42" = Except.ok
      { loans := [c4Loan], repayments := [c4Repayment, c4Repayment],
        trustScores := [("U", 60)] } := by
    unfold process_repayment
    rw [show getLoan
      { loans := [c4Loan], repayments := [c4Repayment], trustScores := [("U", 55)] }
      "L-1" = some c4Loan from by decide]
    dsimp only
    rw [if_neg (by norm_num [c4Store, c4Loan, c4Repayment, createRepayment,
      updateTrustScore, getLoanRepayments])]
    simp only [Except.ok.injEq]
    decide
  unfold c4AfterTwice
  rw [c4_once_eq, hp]

/-- C4: `process_repayment` is NOT idempotent in the payment ID.  Delivering
the `p-42` webhook twice leaves two repayment rows with
`dodo_payment_id == "p-42"` and moves the borrower's trust score by +10 —
the handler never looks up existing repayments for the payment ID before
applying. -/
theorem C4_webhook_double_apply :
    (c4AfterOnce.repayments.filter (fun r => r.dodoPaymentId = "p-42")).length = 1 ∧
    trustOf c4AfterOnce "U" = some 55 ∧
    (c4AfterTwice.repayments.filter (fun r => r.dodoPaymentId = "p-42")).length = 2 ∧
    trustOf c4AfterTwice "U" = some 60 := by
  rw [c4_once_eq, c4_twice_eq]
  refine ⟨by decide, by decide, by decide, by decide⟩

end Kredefy
